import Mathlib

/-!
Verification development for the chat-retro issue workflow core
(src/issue_workflow/state_manager.py, src/issue_workflow/workflow.py,
src/shared/issue_types.py), as a shallow embedding in Lean 4.

Modelling conventions:
- Python dicts (insertion ordered, in-place replacement on existing keys)
  are association lists over String keys with dictGet / dictSet / dictDel.
- datetime values are Int timestamps; float scores are exact rationals,
  except the priority scoring formula, which is real-valued because of log2.
- The on-disk state file is modelled semantically: its bytes either parse
  and schema-validate to an IssueState value (FileData.stateFile), fail to
  parse or validate (FileData.junk), or raise an OS error when read
  (FileData.unreadable).
- String.splitOn does not reduce in the kernel, so the Python str.split
  on a single-character separator is implemented structurally (pySplit).
-/

namespace ChatRetro

/-- Python str.split on a single-character separator: auxiliary loop. -/
def splitCharAux (sep : Char) : List Char → List Char → List (List Char)
  | [], acc => [acc.reverse]
  | c :: cs, acc =>
    if c = sep then acc.reverse :: splitCharAux sep cs []
    else splitCharAux sep cs (c :: acc)

/-- Python str.split(sep) for a one-character sep, e.g. stem.split("_"). -/
def pySplit (s : String) (sep : Char) : List String :=
  (splitCharAux sep s.data []).map String.mk

/-- Lookup in an insertion-ordered string-keyed map (Python dict read). -/
def dictGet {α : Type} (m : List (String × α)) (k : String) : Option α :=
  match m with
  | [] => none
  | p :: t => if p.1 = k then some p.2 else dictGet t k

/-- Write to an insertion-ordered string-keyed map (Python dict write):
replaces the value in place when the key exists, otherwise appends. -/
def dictSet {α : Type} (m : List (String × α)) (k : String) (v : α) :
    List (String × α) :=
  match m with
  | [] => [(k, v)]
  | p :: t => if p.1 = k then (k, v) :: t else p :: dictSet t k v

/-- Remove a key from a string-keyed map. -/
def dictDel {α : Type} (m : List (String × α)) (k : String) :
    List (String × α) :=
  m.filter (fun p => p.1 != k)

/-- Python "k in d" membership test. -/
def dictHas {α : Type} (m : List (String × α)) (k : String) : Bool :=
  (dictGet m k).isSome

/-- Issue lifecycle status (shared/issue_types.py, IssueStatus). -/
inductive IssueStatus
  | draft
  | triaged
  | clustered
  | prioritized
  | in_progress
  | resolved
  | wont_fix
  | deferred
  deriving DecidableEq

/-- Issue severity level (shared/issue_types.py, IssueSeverity). -/
inductive IssueSeverity
  | critical
  | high
  | medium
  | low
  deriving DecidableEq

/-- The string value of a severity (str enum value in the source). -/
def severityValue : IssueSeverity → String
  | IssueSeverity.critical => "critical"
  | IssueSeverity.high => "high"
  | IssueSeverity.medium => "medium"
  | IssueSeverity.low => "low"

/-- Issue with lifecycle tracking (shared/issue_types.py, Issue).
Defaults mirror the pydantic field defaults; created and updated default
to 0 standing for the construction-time clock value, and are passed
explicitly by the operations that set them. -/
structure Issue where
  id : String
  title : String
  description : String
  sanitized_title : Option String := none
  sanitized_description : Option String := none
  category : String := "bug"
  tags : List String := []
  affected_files : List String := []
  status : IssueStatus := IssueStatus.draft
  created : Int := 0
  updated : Int := 0
  cluster_id : Option String := none
  similarity_score : Option ℚ := none
  severity : Option IssueSeverity := none
  frequency : Nat := 1
  fix_complexity : Option String := none
  priority_score : Option ℚ := none
  resolution_notes : Option String := none
  resolved_by : Option String := none
  context : List (String × String) := []
  deriving DecidableEq

/-- Group of related issues for batch resolution
(shared/issue_types.py, IssueCluster). Cluster status is a plain string
in the source ("pending", "approved", "in_progress", "resolved"). -/
structure IssueCluster where
  id : String
  theme : String
  issue_ids : List String := []
  affected_files : List String := []
  primary_category : String := "bug"
  aggregate_severity : IssueSeverity := IssueSeverity.medium
  aggregate_priority : ℚ := 0
  resolution_strategy : Option String := none
  status : String := "pending"
  deriving DecidableEq

/-- Persistent issue management state (shared/issue_types.py, IssueState). -/
structure IssueState where
  schema_version : Nat := 1
  issues : List (String × Issue) := []
  clusters : List (String × IssueCluster) := []
  last_triage_run : Option Int := none
  last_cluster_run : Option Int := none
  last_prioritize_run : Option Int := none
  cluster_threshold : ℚ := (0.7 : ℚ)
  deriving DecidableEq

/-- The fresh state returned by IssueState() with all pydantic defaults. -/
def emptyIssueState : IssueState := {}

/-- Contents of one on-disk file, modelled semantically.
stateFile s: bytes that json-parse and (after migration) schema-validate
to the aggregate s. junk raw: bytes for which json.loads raises
JSONDecodeError or model_validate raises ValidationError. unreadable err:
a file whose read raises an OS error such as permission denied. -/
inductive FileData
  | stateFile (s : IssueState)
  | junk (raw : String)
  | unreadable (err : String)
  deriving DecidableEq

/-- A directory of files: path to contents. -/
abbrev FileSystem := List (String × FileData)

/-- Whether file bytes parse and validate as a full aggregate, and to what.
This is the read-back interpretation of FileData. -/
def parseState : FileData → Option IssueState
  | FileData.stateFile s => some s
  | _ => none

/-- The temporary sibling used by save. The state path ends in ".json" and
with_suffix(".json.tmp") therefore appends ".tmp" to the full path. -/
def tmpPath (p : String) : String := p ++ ".tmp"

/-- The corruption backup sibling used by load, via with_suffix(".json.corrupt"). -/
def corruptPath (p : String) : String := p ++ ".corrupt"

/-- First half of IssueStateManager.save: tmp.write_text(state.model_dump_json()).
A crash can occur after this step, before the rename. -/
def writeTmp (fs : FileSystem) (p : String) (s : IssueState) : FileSystem :=
  dictSet fs (tmpPath p) (FileData.stateFile s)

/-- Path.rename(src, dst): moves the contents of src over dst, replacing
any existing dst (POSIX semantics). The source code only renames existing
files, so the missing-src branch (which would raise) returns fs unchanged. -/
def renameFile (fs : FileSystem) (src dst : String) : FileSystem :=
  match dictGet fs src with
  | none => fs
  | some d => dictSet (dictDel fs src) dst d

/-- IssueStateManager.save (state_manager.py lines 58-63): write the
serialized aggregate to the temporary sibling, then atomically rename it
over the canonical path. -/
def save (fs : FileSystem) (p : String) (s : IssueState) : FileSystem :=
  renameFile (writeTmp fs p s) (tmpPath p) p

/-- IssueStateManager.load (state_manager.py lines 37-56): missing file
gives a fresh empty state; a file that parses and validates (after
migration, folded into FileData.stateFile) gives its aggregate; a file
that fails json parsing or schema validation is renamed to the .corrupt
sibling and a fresh empty state is returned; any other I/O error
propagates (the except clause catches only JSONDecodeError and
ValidationError). -/
def load (fs : FileSystem) (p : String) : Except String (IssueState × FileSystem) :=
  match dictGet fs p with
  | none => Except.ok (emptyIssueState, fs)
  | some (FileData.stateFile s) => Except.ok (s, fs)
  | some (FileData.junk _) =>
    Except.ok (emptyIssueState, renameFile fs p (corruptPath p))
  | some (FileData.unreadable e) => Except.error e

/-- Fix complexity categories used by the priority scoring formula
(trivial, small, medium, large). -/
inductive FixComplexity
  | trivial
  | small
  | medium
  | large
  deriving DecidableEq

/-- Modelled from the spec: severity_weight of the priority scorer
(spec section 4.5). In the repository the scoring formula appears only as
the ISSUE_PRIORITIZATION agent prompt text (issue_workflow/agents.py lines
80-109) and is not implemented as executable core code; the prompt formula
is identical to the spec formula. -/
noncomputable def severity_weight : IssueSeverity → ℝ
  | IssueSeverity.critical => 4
  | IssueSeverity.high => 3
  | IssueSeverity.medium => 2
  | IssueSeverity.low => 1

/-- Modelled from the spec: complexity_inverse of the priority scorer
(spec section 4.5); see severity_weight for the source situation. -/
noncomputable def complexity_inverse : FixComplexity → ℝ
  | FixComplexity.trivial => 4
  | FixComplexity.small => 3
  | FixComplexity.medium => 2
  | FixComplexity.large => 1

/-- Modelled from the spec: recency_multiplier of the priority scorer,
1.5 when the issue was created within the last 7 days, else 1.0
(spec section 4.5); daysSinceCreated counts whole days since creation. -/
noncomputable def recency_multiplier (daysSinceCreated : ℕ) : ℝ :=
  if daysSinceCreated < 7 then 1.5 else 1

/-- Modelled from the spec: the pure priority scoring function
priority_score = severity_weight x log2(frequency + 1) x
complexity_inverse x recency_multiplier (spec section 4.5, identical to
the formula in the ISSUE_PRIORITIZATION prompt). -/
noncomputable def priority_score (sev : IssueSeverity) (frequency : ℕ)
    (cx : FixComplexity) (daysSinceCreated : ℕ) : ℝ :=
  severity_weight sev * Real.logb 2 (frequency + 1) *
    complexity_inverse cx * recency_multiplier daysSinceCreated

/-- Concrete filesystem fixture: a state file whose bytes fail parsing. -/
def fsJunkEx : FileSystem := [("s.json", FileData.junk "not json")]

/-- Parsed JSON contents of one draft artifact file (issue-drafts/*.json):
at least title, description, category, context, created (spec section 6);
id is present for drafts written through the shared Issue schema. created
is the parsed fromisoformat timestamp when the key is present. -/
structure DraftData where
  id : Option String := none
  title : String
  description : String
  category : Option String := none
  context : List (String × String) := []
  created : Option Int := none
  deriving DecidableEq

/-- The persisted aggregate plus the issue-drafts directory, keyed by
filename stem in directory-listing order. The load-mutate-save cycles of
the state manager are modelled as direct access to the persisted state
(justified by save_atomic: a completed save is the new canonical file). -/
structure DraftWorld where
  state : IssueState
  drafts : List (String × DraftData)
  deriving DecidableEq

/-- Python truthiness for an optional string: None and the empty string
are falsy (the source chains them with the or operator). -/
def pyFalsyStr (x : Option String) : Option String :=
  match x with
  | some s => if s = "" then none else some s
  | none => none

/-- The trailing underscore-separated component of a filename stem
(parts[-1] in the source). -/
def lastPart (stem : String) : String :=
  (pySplit stem '_').getLastD ""

/-- Id extraction from a draft filename stem (import_draft, lines 136-139):
parts = stem.split("_"); parts[-1] when there are at least 4 parts, else None. -/
def draftFileId (stem : String) : Option String :=
  if 4 ≤ (pySplit stem '_').length then some (lastPart stem) else none

/-- The Issue built by import_draft from a parsed draft file (lines 145-153):
status draft, category defaulting to bug, created falling back to the
current time, remaining fields at their pydantic defaults. -/
def draftIssue (iid : String) (data : DraftData) (now : Int) : Issue :=
  { id := iid
    title := data.title
    description := data.description
    category := data.category.getD "bug"
    context := data.context
    status := IssueStatus.draft
    created := data.created.getD now
    updated := now }

/-- The world after the save inside import_draft: the issue is in the
persisted state and the draft file is untouched. -/
def commitWorld (w : DraftWorld) (iid : String) (data : DraftData)
    (now : Int) : DraftWorld :=
  { state := { w.state with issues := dictSet w.state.issues iid (draftIssue iid data now) }
    drafts := w.drafts }

/-- The commit phase of import_draft (state_manager.py lines 134-157):
parse the draft file, build the Issue with status draft, and save it into
state keyed by its id. The source file still exists at this point; a crash
here leaves the draft on disk for retry. Resolving the id as
(filename id or data id) with Python or-semantics; when both are missing
the Issue constructor raises a ValidationError (id must be a string). -/
def importDraftCommit (w : DraftWorld) (stem : String) (data : DraftData)
    (now : Int) : Except String (DraftWorld × Issue) :=
  match (pyFalsyStr (draftFileId stem)).orElse (fun _ => data.id) with
  | none => Except.error "ValidationError: Issue.id"
  | some iid => Except.ok (commitWorld w iid data now, draftIssue iid data now)

/-- import_draft (state_manager.py lines 128-159): commit the issue into
saved state first, then delete the source file. -/
def import_draft (w : DraftWorld) (stem : String) (data : DraftData)
    (now : Int) : Except String (DraftWorld × Issue) :=
  match importDraftCommit w stem data now with
  | Except.error e => Except.error e
  | Except.ok (w1, issue) =>
    Except.ok ({ w1 with drafts := dictDel w1.drafts stem }, issue)

/-- Loop body of import_all_drafts (lines 169-179) over the initial
directory listing. snapshot is the state loaded once at the top of
import_all_drafts: the already-imported test uses this snapshot, while
each import_draft operates on the live state. A draft whose filename has
at least 4 underscore-separated parts and whose trailing id is already in
the snapshot is skipped and its file deleted; otherwise it is imported. -/
def importAllDraftsGo (snapshot : IssueState) (now : Int) :
    DraftWorld → List (String × DraftData) → Except String (DraftWorld × List Issue)
  | w, [] => Except.ok (w, [])
  | w, (stem, data) :: rest =>
    if decide (4 ≤ (pySplit stem '_').length) && dictHas snapshot.issues (lastPart stem) then
      importAllDraftsGo snapshot now { w with drafts := dictDel w.drafts stem } rest
    else
      match import_draft w stem data now with
      | Except.error e => Except.error e
      | Except.ok (w1, issue) =>
        match importAllDraftsGo snapshot now w1 rest with
        | Except.error e => Except.error e
        | Except.ok (w2, imported) => Except.ok (w2, issue :: imported)

/-- import_all_drafts (state_manager.py lines 161-181): load the state
once, then walk the draft files, skipping ids already present in that
snapshot and importing the rest; returns the newly imported issues. -/
def import_all_drafts (w : DraftWorld) (now : Int) :
    Except String (DraftWorld × List Issue) :=
  importAllDraftsGo w.state now w w.drafts

/-- A draft filename stem following the generated naming convention
draft_YYYYMMDD_HHMMSS_id (issue_reporter.py line 55, state_manager.py
line 105): at least four underscore-separated parts, nonempty trailing id. -/
def wellFormedStem (stem : String) : Bool :=
  decide (4 ≤ (pySplit stem '_').length) && (lastPart stem != "")

/-- Concrete partially-completed import: the draft with trailing id ab is
already committed to state but its source file was not deleted. -/
def retryWorldEx : DraftWorld :=
  { state := { issues := [("ab", { id := "ab", title := "t", description := "d" })] }
    drafts := [("d_1_2_ab", { title := "t", description := "d" })] }

/-- Result of a workflow step (workflow.py, WorkflowResult); the optional
data dict of the source is omitted, no claim depends on it. -/
structure WorkflowResult where
  success : Bool
  message : String
  deriving DecidableEq

/-- One per-issue entry of the parsed triage agent output: the fields
run_triage reads (workflow.py lines 163-183), each optional because the
merge tests key presence. -/
structure TriagePatch where
  id : Option String := none
  title : Option String := none
  description : Option String := none
  affected_files : Option (List String) := none
  tags : Option (List String) := none
  severity : Option IssueSeverity := none
  deriving DecidableEq

/-- Merge of one triage agent entry onto the state (workflow.py lines
164-183): applied only when the truthy id matches an existing issue;
sanitized title and description overwrite in place with the raw value
preserved in context when it differs; severity, affected files and tags
are copied when present; the issue advances to triaged. -/
def applyTriagePatch (st : IssueState) (now : Int) (p : TriagePatch) : IssueState :=
  match pyFalsyStr p.id with
  | none => st
  | some iid =>
    match dictGet st.issues iid with
    | none => st
    | some issue =>
      let i1 := match p.title with
        | some t =>
          if t ≠ issue.title then
            { issue with
                context := dictSet issue.context "raw_title" issue.title
                title := t }
          else issue
        | none => issue
      let i2 := match p.description with
        | some d =>
          if d ≠ i1.description then
            { i1 with
                context := dictSet i1.context "raw_description" i1.description
                description := d }
          else i1
        | none => i1
      let i3 := match p.affected_files with
        | some fs => { i2 with affected_files := fs }
        | none => i2
      let i4 := match p.tags with
        | some ts => { i3 with tags := ts }
        | none => i3
      let i5 := match p.severity with
        | some sv => { i4 with severity := some sv }
        | none => i4
      { st with issues :=
          dictSet st.issues iid { i5 with status := IssueStatus.triaged, updated := now } }

/-- run_triage (workflow.py lines 128-192): import loose draft files,
collect draft issues, send them to the agent, merge the per-issue entries
and stamp last_triage_run. With no drafts it returns success without
calling the agent; a failed agent run returns failure without saving.
The parsed agent output is none on failure; a JSON result that is not a
list applies no patches, modelled by the empty list. A ValidationError
from the import propagates. -/
def run_triage (w : DraftWorld) (agent : Option (List TriagePatch)) (now : Int) :
    Except String (WorkflowResult × DraftWorld) :=
  match import_all_drafts w now with
  | Except.error e => Except.error e
  | Except.ok (w1, _) =>
    if (w1.state.issues.filter (fun p => p.2.status == IssueStatus.draft)).isEmpty then
      Except.ok ({ success := true, message := "No draft issues to triage." }, w1)
    else
      match agent with
      | none => Except.ok ({ success := false, message := "Triage agent failed." }, w1)
      | some patches =>
        let st := patches.foldl (fun acc p => applyTriagePatch acc now p) w1.state
        Except.ok ({ success := true, message := "Triaged issues." },
          { w1 with state := { st with last_triage_run := some now } })

/-- Python truthiness for an optional list: None and the empty list are falsy. -/
def pyFalsyList (x : Option (List String)) : Option (List String) :=
  match x with
  | some [] => none
  | some l => some l
  | none => none

/-- One cluster definition of the parsed clustering agent output: the keys
run_clustering reads (workflow.py lines 226-243). -/
structure ClusterPatch where
  id : Option String := none
  cluster_id : Option String := none
  theme : Option String := none
  issue_ids : Option (List String) := none
  member_issue_ids : Option (List String) := none
  affected_files : Option (List String) := none
  resolution_strategy : Option String := none
  deriving DecidableEq

/-- One per-issue entry of the parsed clustering agent output
(workflow.py lines 248-257). -/
structure ClusterIssuePatch where
  id : Option String := none
  cluster_id : Option String := none
  similarity_score : Option ℚ := none
  deriving DecidableEq

/-- Parsed clustering agent output: result.get lists (workflow.py lines
226 and 248). A JSON result that is not an object applies no patches,
modelled by the empty lists. -/
structure ClusteringResult where
  clusters : List ClusterPatch := []
  issues : List ClusterIssuePatch := []
  deriving DecidableEq

/-- Creation of one cluster from a clustering agent entry (lines 226-245):
the id falls back from id to cluster_id to a generated cluster-n name with
Python or-chaining, likewise the member list; remaining fields default. -/
def applyClusterDef (st : IssueState) (cp : ClusterPatch) : IssueState :=
  let cid := ((pyFalsyStr cp.id).orElse (fun _ => pyFalsyStr cp.cluster_id)).getD
      ("cluster-" ++ toString st.clusters.length)
  let ids := ((pyFalsyList cp.issue_ids).orElse
      (fun _ => pyFalsyList cp.member_issue_ids)).getD []
  let cluster : IssueCluster := {
    id := cid
    theme := cp.theme.getD ""
    issue_ids := ids
    affected_files := cp.affected_files.getD []
    resolution_strategy := cp.resolution_strategy }
  { st with clusters := dictSet st.clusters cid cluster }

/-- Merge of one per-issue clustering entry (lines 248-257): cluster_id
and similarity_score are copied when present and the issue advances to
clustered, for any truthy id found in the state. -/
def applyClusterIssuePatch (st : IssueState) (now : Int) (p : ClusterIssuePatch) :
    IssueState :=
  match pyFalsyStr p.id with
  | none => st
  | some iid =>
    match dictGet st.issues iid with
    | none => st
    | some issue =>
      let i1 := match p.cluster_id with
        | some c => { issue with cluster_id := some c }
        | none => issue
      let i2 := match p.similarity_score with
        | some s => { i1 with similarity_score := some s }
        | none => i1
      { st with issues :=
          dictSet st.issues iid { i2 with status := IssueStatus.clustered, updated := now } }

/-- run_clustering (workflow.py lines 194-265) over the persisted state:
with no triaged issues it returns success untouched; a failed agent run
returns failure without saving; otherwise cluster definitions and
per-issue assignments are merged and last_cluster_run stamped. -/
def run_clustering (st : IssueState) (agent : Option ClusteringResult) (now : Int) :
    WorkflowResult × IssueState :=
  if (st.issues.filter (fun p => p.2.status == IssueStatus.triaged)).isEmpty then
    ({ success := true, message := "No triaged issues to cluster." }, st)
  else
    match agent with
    | none => ({ success := false, message := "Clustering agent failed." }, st)
    | some res =>
      let st1 := res.clusters.foldl applyClusterDef st
      let st2 := res.issues.foldl (fun acc p => applyClusterIssuePatch acc now p) st1
      ({ success := true, message := "Created clusters." },
        { st2 with last_cluster_run := some now })

/-- One per-issue entry of the parsed prioritization agent output
(workflow.py lines 303-314). -/
structure PrioIssuePatch where
  id : Option String := none
  severity : Option IssueSeverity := none
  fix_complexity : Option String := none
  priority_score : Option ℚ := none
  deriving DecidableEq

/-- One per-cluster entry of the parsed prioritization agent output
(workflow.py lines 317-326). -/
structure PrioClusterPatch where
  id : Option String := none
  cluster_id : Option String := none
  aggregate_priority : Option ℚ := none
  aggregate_severity : Option IssueSeverity := none
  deriving DecidableEq

/-- Parsed prioritization agent output (workflow.py lines 301-326). -/
structure PrioResult where
  issues : List PrioIssuePatch := []
  clusters : List PrioClusterPatch := []
  deriving DecidableEq

/-- Merge of one per-issue prioritization entry (lines 303-314): severity,
fix_complexity and priority_score are copied verbatim when present and the
issue advances to prioritized, for any truthy id found in the state. -/
def applyPrioIssuePatch (st : IssueState) (now : Int) (p : PrioIssuePatch) : IssueState :=
  match pyFalsyStr p.id with
  | none => st
  | some iid =>
    match dictGet st.issues iid with
    | none => st
    | some issue =>
      let i1 := match p.severity with
        | some sv => { issue with severity := some sv }
        | none => issue
      let i2 := match p.fix_complexity with
        | some f => { i1 with fix_complexity := some f }
        | none => i1
      let i3 := match p.priority_score with
        | some s => { i2 with priority_score := some s }
        | none => i2
      { st with issues :=
          dictSet st.issues iid { i3 with status := IssueStatus.prioritized, updated := now } }

/-- Merge of one per-cluster prioritization entry (lines 317-326):
aggregate_priority and aggregate_severity are copied verbatim when present,
for any truthy id (or cluster_id) found in the state. -/
def applyPrioClusterPatch (st : IssueState) (p : PrioClusterPatch) : IssueState :=
  match (pyFalsyStr p.id).orElse (fun _ => pyFalsyStr p.cluster_id) with
  | none => st
  | some cid =>
    match dictGet st.clusters cid with
    | none => st
    | some cluster =>
      let c1 := match p.aggregate_priority with
        | some ap => { cluster with aggregate_priority := ap }
        | none => cluster
      let c2 := match p.aggregate_severity with
        | some asv => { c1 with aggregate_severity := asv }
        | none => c1
      { st with clusters := dictSet st.clusters cid c2 }

/-- The issues run_prioritization sends to the agent: status triaged or
clustered (workflow.py lines 270-273). -/
def toPrioritize (st : IssueState) : List Issue :=
  (st.issues.filter (fun p =>
    p.2.status == IssueStatus.triaged || p.2.status == IssueStatus.clustered)).map Prod.snd

/-- run_prioritization (workflow.py lines 267-342): collect triaged and
clustered issues, apply the agent result in memory, then block on the
human gate; on rejection it returns failure before the save, leaving the
persisted state unchanged; on approval it stamps last_prioritize_run and
saves the merged state. -/
def run_prioritization (st : IssueState) (agent : Option PrioResult)
    (gateApproved : Bool) (now : Int) : WorkflowResult × IssueState :=
  if (toPrioritize st).isEmpty then
    ({ success := true, message := "No issues to prioritize." }, st)
  else
    match agent with
    | none => ({ success := false, message := "Prioritization agent failed." }, st)
    | some res =>
      let st1 := res.issues.foldl (fun acc p => applyPrioIssuePatch acc now p) st
      let st2 := res.clusters.foldl applyPrioClusterPatch st1
      if gateApproved then
        ({ success := true, message := "Prioritization approved." },
          { st2 with last_prioritize_run := some now })
      else
        ({ success := false, message := "Prioritization rejected by user." }, st)

/-- Parsed resolution agent output: needs_approval reflects
result.get action == needs_approval on a JSON object; commit and notes are
the recorded fields when present. A JSON result that is not an object has
needs_approval false and no fields. -/
structure ResPayload where
  needs_approval : Bool := false
  commit : Option String := none
  notes : Option String := none
  deriving DecidableEq

/-- The per-member mutation of a successful resolution (workflow.py lines
399-410): resolved_by and resolution_notes when the result carries them,
then status resolved. -/
def resolveMember (result : Option ResPayload) (i : Issue) : Issue :=
  let i1 := match result with
    | some r =>
      let ia := match r.commit with
        | some c => { i with resolved_by := some c }
        | none => i
      match r.notes with
      | some n => { ia with resolution_notes := some n }
      | none => ia
    | none => i
  { i1 with status := IssueStatus.resolved }

/-- The state mutation of a successful run_resolution (lines 398-411):
every member issue present in the state is resolved with the recorded
fields, and the cluster status becomes resolved. -/
def finishResolution (st : IssueState) (cluster : IssueCluster) (cid : String)
    (result : Option ResPayload) : IssueState :=
  let issues := cluster.issue_ids.foldl (fun m iid =>
      match dictGet m iid with
      | some i => dictSet m iid (resolveMember result i)
      | none => m) st.issues
  { st with
      issues := issues
      clusters := dictSet st.clusters cid { cluster with status := "resolved" } }

/-- run_resolution (workflow.py lines 344-416): fails without saving on an
unknown cluster id, a cluster that is not approved, or a failed agent run;
when the first result asks for approval the human gate can reject (failure,
no save) or approve, in which case the agent is re-invoked with the
approval directive and its result res2 is applied; otherwise the first
result is applied. On the success path members and cluster are marked
resolved and the state saved. -/
def run_resolution (st : IssueState) (res1 : Option ResPayload) (gatePlan : Bool)
    (res2 : Option ResPayload) (cid : String) : WorkflowResult × IssueState :=
  match dictGet st.clusters cid with
  | none => ({ success := false, message := "Cluster not found." }, st)
  | some cluster =>
    if cluster.status ≠ "approved" then
      ({ success := false, message := "Cluster not approved for resolution." }, st)
    else
      match res1 with
      | none => ({ success := false, message := "Resolution agent failed." }, st)
      | some r =>
        if r.needs_approval then
          if gatePlan then
            ({ success := true, message := "Resolved cluster." },
              finishResolution st cluster cid res2)
          else
            ({ success := false, message := "Resolution plan rejected." }, st)
        else
          ({ success := true, message := "Resolved cluster." },
            finishResolution st cluster cid (some r))

/-- The files touched by stage-4 resolution: the persisted aggregate plus
the CHANGELOG.md contents (none when the file is absent). run_resolution
reads and writes only the aggregate: workflow.py lines 344-416 persist
through state_manager.save alone and never call resolve_issue or
_append_changelog, the only changelog writers in the repository. -/
structure ResolutionWorld where
  state : IssueState
  changelog : Option String
  deriving DecidableEq

/-- run_resolution lifted to the resolution world: the changelog is not
among the locations the source function reads or writes. -/
def run_resolutionW (w : ResolutionWorld) (res1 : Option ResPayload) (gatePlan : Bool)
    (res2 : Option ResPayload) (cid : String) : WorkflowResult × ResolutionWorld :=
  let r := run_resolution w.state res1 gatePlan res2 cid
  (r.1, { state := r.2, changelog := w.changelog })

/-- Substring membership over character lists (Python in-operator). -/
def subList (needle : List Char) : List Char → Bool
  | [] => needle.isEmpty
  | c :: cs => needle.isPrefixOf (c :: cs) || subList needle cs

/-- Python needle in haystack for strings. -/
def strContains (hay needle : String) : Bool :=
  subList needle.data hay.data

/-- Split at the first occurrence of sep: auxiliary loop over characters. -/
def splitFirstAux (sep : List Char) (pre : List Char) :
    List Char → Option (List Char × List Char)
  | [] => if sep.isEmpty then some (pre.reverse, []) else none
  | c :: cs =>
    if sep.isPrefixOf (c :: cs) then some (pre.reverse, (c :: cs).drop sep.length)
    else splitFirstAux sep (c :: pre) cs

/-- Python s.split(sep, 1): the two pieces around the first occurrence of
sep, or none when sep does not occur. -/
def splitFirst (s sep : String) : Option (String × String) :=
  (splitFirstAux sep.data [] s.data).map (fun q => (String.mk q.1, String.mk q.2))

/-- Python content.split newline-separator with maxsplit 2: one to three pieces. -/
def splitN2 (s : String) : List String :=
  match splitFirst s "\n" with
  | none => [s]
  | some (a, r) =>
    match splitFirst r "\n" with
    | none => [a, r]
    | some (b, r2) => [a, b, r2]

/-- _append_changelog (state_manager.py lines 231-252): day-grouped append
of one resolution bullet. When the day header already occurs the entry is
inserted at the top of that section; when the file exists without the
header a new day section is inserted after the first line (the original
second line is dropped by the source); a missing or single-line file is
rebuilt fresh. Returns none in the corner where the header occurs without
a following newline (parts[1] would raise IndexError in the source). -/
def appendChangelog (changelog : Option String) (issueId notes today : String) :
    Option String :=
  let header := "## " ++ today
  let entry := "- **" ++ issueId ++ "**: " ++ notes ++ "\n"
  match changelog with
  | none => some ("# Issue Changelog\n\n" ++ header ++ "\n" ++ entry)
  | some content =>
    if strContains content header then
      match splitFirst content (header ++ "\n") with
      | some (pre, post) => some (pre ++ header ++ "\n" ++ entry ++ post)
      | none => none
    else
      match splitN2 content with
      | [l0, _] => some (l0 ++ "\n\n" ++ header ++ "\n" ++ entry ++ "\n")
      | [l0, _, l2] => some (l0 ++ "\n\n" ++ header ++ "\n" ++ entry ++ "\n" ++ l2)
      | _ => some ("# Issue Changelog\n\n" ++ header ++ "\n" ++ entry)

/-- An issue with its status replaced and updated stamped, the mutation
shared by defer_issue and wontfix_issue. -/
def setStatus (i : Issue) (s : IssueStatus) (now : Int) : Issue :=
  { i with status := s, updated := now }

/-- defer_issue (workflow.py lines 636-646): unknown ids fail without
mutation; otherwise the status is set to deferred unconditionally. -/
def defer_issue (st : IssueState) (iid : String) (now : Int) :
    WorkflowResult × IssueState :=
  match dictGet st.issues iid with
  | none => ({ success := false, message := "Issue not found." }, st)
  | some i =>
    ({ success := true, message := "Issue deferred." },
      { st with issues := dictSet st.issues iid (setStatus i IssueStatus.deferred now) })

/-- wontfix_issue (workflow.py lines 648-658): unknown ids fail without
mutation; otherwise the status is set to wont_fix unconditionally. -/
def wontfix_issue (st : IssueState) (iid : String) (now : Int) :
    WorkflowResult × IssueState :=
  match dictGet st.issues iid with
  | none => ({ success := false, message := "Issue not found." }, st)
  | some i =>
    ({ success := true, message := "Issue marked as wont fix." },
      { st with issues := dictSet st.issues iid (setStatus i IssueStatus.wont_fix now) })

/-- The sanitized public projection written by publish_issue
(state_manager.py lines 194-204): exactly these nine fields. -/
structure PublicIssue where
  id : String
  title : String
  description : String
  category : String
  tags : List String
  affected_files : List String
  severity : String
  frequency : Nat
  created : Int
  deriving DecidableEq

/-- publish_issue (state_manager.py lines 185-209): drafts are rejected;
otherwise the file contains only the sanitized projection, with severity
rendered as its string value or unknown when unset. The context field is
never read. -/
def publish_issue (i : Issue) : Except String PublicIssue :=
  if i.status == IssueStatus.draft then
    Except.error "Issue must be triaged before publishing"
  else
    Except.ok {
      id := i.id
      title := i.title
      description := i.description
      category := i.category
      tags := i.tags
      affected_files := i.affected_files
      severity := match i.severity with
        | some s => severityValue s
        | none => "unknown"
      frequency := i.frequency
      created := i.created }

/-- The singleton cluster synthesized by _fast_track_resolve (workflow.py
lines 427-434): auto-approved, aggregate severity critical, aggregate
priority pinned to 10.0. -/
def ftCluster (issue : Issue) (cid : String) : IssueCluster :=
  { id := cid
    theme := "Critical: " ++ issue.title
    issue_ids := [issue.id]
    affected_files := issue.affected_files
    aggregate_severity := IssueSeverity.critical
    aggregate_priority := 10
    status := "approved" }

/-- The fast-tracked issue as written back to state (workflow.py lines
439-441): cluster back-reference set, advanced to prioritized. -/
def ftIssue (issue : Issue) (cid : String) : Issue :=
  { issue with cluster_id := some cid, status := IssueStatus.prioritized }

/-- The state transaction of _fast_track_resolve before resolution
(workflow.py lines 436-442): insert the singleton cluster and advance the
issue to prioritized with its cluster back-reference. -/
def fastTrackState (st : IssueState) (issue : Issue) (cid : String) : IssueState :=
  { st with
      clusters := dictSet st.clusters cid (ftCluster issue cid)
      issues := dictSet st.issues issue.id (ftIssue issue cid) }

/-- The pipeline inputs that come from outside the core: per-stage parsed
agent outputs, the human gate answers, and the uuid generator for
fast-track cluster ids, keyed by the cluster id (for resolution results
and plan gates) or issue id (for fresh cluster ids). The Bool argument of
resolution is the approval re-invocation flag. -/
structure Oracle where
  triage : Option (List TriagePatch)
  clustering : Option ClusteringResult
  prioritization : Option PrioResult
  gatePrio : Bool
  resolution : String → Bool → Option ResPayload
  gatePlan : String → Bool
  freshClusterId : String → String

/-- _fast_track_resolve (workflow.py lines 418-445): commit the fast-track
state transaction, then run resolution on the synthesized cluster. -/
def fast_track_resolve (o : Oracle) (st : IssueState) (issue : Issue) :
    WorkflowResult × IssueState :=
  let cid := o.freshClusterId issue.id
  let st1 := fastTrackState st issue cid
  run_resolution st1 (o.resolution cid false) (o.gatePlan cid) (o.resolution cid true) cid

/-- The critical issues process fast-tracks after triage (workflow.py
lines 564-567): status triaged with severity critical. -/
def criticalIssues (st : IssueState) : List Issue :=
  (st.issues.filter (fun p =>
    p.2.status == IssueStatus.triaged
      && p.2.severity == some IssueSeverity.critical)).map Prod.snd

/-- One iteration of the fast-track loop of process (workflow.py lines
571-574): resolve the issue against the running state and append its id
and message to the failure list when the fast-track failed. -/
def ftStep (o : Oracle) (acc : IssueState × List (String × String)) (issue : Issue) :
    IssueState × List (String × String) :=
  let r := fast_track_resolve o acc.1 issue
  (r.2, if r.1.success then acc.2 else acc.2 ++ [(issue.id, r.1.message)])

/-- The fast-track loop of process (workflow.py lines 568-578): resolve
each captured critical issue in turn, collecting failures without
aborting. -/
def ftLoop (o : Oracle) (st : IssueState) (criticals : List Issue) :
    IssueState × List (String × String) :=
  criticals.foldl (ftStep o) (st, [])

/-- The observable outcome of one process run: the returned result, the
final persisted world, and the recorded fast-track failure list. -/
structure ProcessOutcome where
  result : WorkflowResult
  world : DraftWorld
  ftFailures : List (String × String)
  deriving DecidableEq

/-- The stages of process after a successful triage (workflow.py lines
562-611): fast-track the critical issues, then clustering, then
prioritization (each aborting the run on failure while keeping the state
already committed), then resolution of every approved cluster; with no
approved clusters the run pauses successfully. -/
def processAfterTriage (o : Oracle) (w1 : DraftWorld) (now : Int) : ProcessOutcome :=
  let fl := ftLoop o w1.state (criticalIssues w1.state)
  let fails := fl.2
  let rc := run_clustering fl.1 o.clustering now
  if rc.1.success then
    let rp := run_prioritization rc.2 o.prioritization o.gatePrio now
    if rp.1.success then
      let st4 := rp.2
      let approved := (st4.clusters.filter (fun p => p.2.status == "approved")).map Prod.snd
      if approved.isEmpty then
        ({ result := { success := true, message := "Pipeline paused." },
           world := { w1 with state := st4 }, ftFailures := fails })
      else
        let stFinal := approved.foldl (fun acc c =>
          (run_resolution acc (o.resolution c.id false) (o.gatePlan c.id)
            (o.resolution c.id true) c.id).2) st4
        ({ result := { success := true, message := "Pipeline complete." },
           world := { w1 with state := stFinal }, ftFailures := fails })
    else
      ({ result := rp.1, world := { w1 with state := rp.2 }, ftFailures := fails })
  else
    ({ result := rc.1, world := { w1 with state := rc.2 }, ftFailures := fails })

/-- process (workflow.py lines 548-611): run triage; on triage failure the
run ends there; otherwise execute the post-triage stages. A
ValidationError from the draft import propagates. -/
def process (o : Oracle) (w : DraftWorld) (now : Int) : Except String ProcessOutcome :=
  match run_triage w o.triage now with
  | Except.error e => Except.error e
  | Except.ok (r1, w1) =>
    if r1.success then Except.ok (processAfterTriage o w1 now)
    else Except.ok { result := r1, world := w1, ftFailures := [] }

/-- The status of the issue stored under a key, when present. -/
def statusAt (st : IssueState) (iid : String) : Option IssueStatus :=
  (dictGet st.issues iid).map Issue.status

/-- The priority score of the issue stored under a key, when present and set. -/
def scoreAt (st : IssueState) (iid : String) : Option ℚ :=
  (dictGet st.issues iid).bind Issue.priority_score

/-- Whether one cluster satisfies the aggregate-priority invariant in a
state: aggregate_priority at least the priority_score of every member
issue whose score is set. -/
def clusterOk (st : IssueState) (c : IssueCluster) : Bool :=
  c.issue_ids.all (fun iid =>
    match dictGet st.issues iid with
    | some i =>
      match i.priority_score with
      | some p => decide (p ≤ c.aggregate_priority)
      | none => true
    | none => true)

/-- The cluster aggregate invariant of the spec over a whole state. -/
def aggregateInvariant (st : IssueState) : Bool :=
  st.clusters.all (fun p => clusterOk st p.2)

/- ======== concrete fixtures for counterexamples and witnesses ======== -/

/-- A clustered issue inside cluster c with no score yet. -/
def exC5Issue : Issue :=
  { id := "i", title := "t", description := "d",
    status := IssueStatus.clustered, cluster_id := some "c" }

/-- A pending cluster holding exC5Issue with aggregate 5. -/
def exC5Cluster : IssueCluster :=
  { id := "c", theme := "th", issue_ids := ["i"], aggregate_priority := 5 }

/-- State before the prioritization merge of the C5 counterexample. -/
def exC5State : IssueState :=
  { issues := [("i", exC5Issue)], clusters := [("c", exC5Cluster)] }

/-- Agent output scoring the member at 5 while lowering the cluster
aggregate to 1: applied verbatim by the merge. -/
def exC5Patch : PrioResult :=
  { issues := [{ id := some "i", priority_score := some 5 }],
    clusters := [{ id := some "c", aggregate_priority := some 1 }] }

/-- A triaged critical issue. -/
def exCritIssue : Issue :=
  { id := "c1", title := "t", description := "d",
    status := IssueStatus.triaged, severity := some IssueSeverity.critical }

/-- A triaged medium issue that keeps the clustering stage busy. -/
def exOtherIssue : Issue :=
  { id := "o1", title := "t2", description := "d2",
    status := IssueStatus.triaged, severity := some IssueSeverity.medium }

/-- World entering process for the C6 counterexample: no loose drafts,
one critical and one medium issue already triaged. -/
def exC6World : DraftWorld :=
  { state := { issues := [("c1", exCritIssue), ("o1", exOtherIssue)] }, drafts := [] }

/-- Oracle for the C6 counterexample: resolution always succeeds, but the
clustering agent output also names the fast-tracked issue c1, and the
prioritization agent then fails, ending the run. -/
def exC6Oracle : Oracle :=
  { triage := none
    clustering := some
      { clusters := []
        issues := [{ id := some "c1", cluster_id := some "x" }, { id := some "o1" }] }
    prioritization := none
    gatePrio := true
    resolution := fun _ _ =>
      some { needs_approval := false, commit := some "abc", notes := some "n" }
    gatePlan := fun _ => true
    freshClusterId := fun iid => "ft-" ++ iid }

/-- Oracle for the C6 witness: like exC6Oracle, but the clustering and
prioritization outputs reference only the non-critical issue o1, and the
prioritization gate approves. -/
def exC6GoodOracle : Oracle :=
  { triage := none
    clustering := some
      { clusters := []
        issues := [{ id := some "o1", cluster_id := some "x" }] }
    prioritization := some
      { issues := [{ id := some "o1", priority_score := some 3 }]
        clusters := [] }
    gatePrio := true
    resolution := fun _ _ =>
      some { needs_approval := false, commit := some "abc", notes := some "n" }
    gatePlan := fun _ => true
    freshClusterId := fun iid => "ft-" ++ iid }

/-- A resolved issue, used to show defer and wontfix ignore the status. -/
def exResolvedIssue : Issue :=
  { id := "r1", title := "t", description := "d", status := IssueStatus.resolved }

/-- State with a single resolved issue. -/
def exC9State : IssueState := { issues := [("r1", exResolvedIssue)] }

/-- An approved singleton cluster over a prioritized member, the normal
input of stage-4 resolution. -/
def exC8Member : Issue :=
  { id := "p1", title := "t", description := "d",
    status := IssueStatus.prioritized, priority_score := some 6 }

def exC8Cluster : IssueCluster :=
  { id := "cl1", theme := "th", issue_ids := ["p1"],
    status := "approved", aggregate_priority := 6 }

def exC8State : IssueState :=
  { issues := [("p1", exC8Member)]
    clusters := [("cl1", exC8Cluster)] }

/-- Resolution world for the C8 run: no changelog file exists yet. -/
def exC8World : ResolutionWorld := { state := exC8State, changelog := none }

/-- A successful implemented resolution payload. -/
def exC8Payload : ResPayload :=
  { needs_approval := false, commit := some "abc123", notes := some "fixed it" }

/- ===================== theorems ===================== -/

theorem dictGet_set_self {α : Type} (m : List (String × α)) (k : String) (v : α) :
    dictGet (dictSet m k v) k = some v := by
  induction m with
  | nil => simp [dictGet, dictSet]
  | cons p t ih =>
    by_cases h : p.1 = k
    · simp [dictGet, dictSet, h]
    · simp [dictGet, dictSet, h, ih]

theorem dictGet_set_ne {α : Type} (m : List (String × α)) (k k' : String) (v : α)
    (h : k' ≠ k) : dictGet (dictSet m k v) k' = dictGet m k' := by
  induction m with
  | nil => simp [dictGet, dictSet, Ne.symm h]
  | cons p t ih =>
    by_cases hp : p.1 = k
    · simp [dictGet, dictSet, hp, Ne.symm h]
    · simp [dictGet, dictSet, hp, ih]

theorem dictGet_del_self {α : Type} (m : List (String × α)) (k : String) :
    dictGet (dictDel m k) k = none := by
  induction m with
  | nil => simp [dictGet, dictDel]
  | cons p t ih =>
    by_cases h : p.1 = k
    · simpa [dictDel, h] using ih
    · simpa [dictDel, dictGet, h] using ih

theorem dictGet_del_ne {α : Type} (m : List (String × α)) (k k' : String)
    (h : k' ≠ k) : dictGet (dictDel m k) k' = dictGet m k' := by
  induction m with
  | nil => simp [dictGet, dictDel]
  | cons p t ih =>
    by_cases hp : p.1 = k
    · simpa [dictDel, dictGet, List.filter_cons, hp, Ne.symm h] using ih
    · by_cases hq : p.1 = k'
      · simp [dictDel, dictGet, List.filter_cons, hp, hq, h]
      · simpa [dictDel, dictGet, List.filter_cons, hp, hq] using ih

theorem tmpPath_ne (p : String) : tmpPath p ≠ p := by
  intro h
  have h2 := congrArg String.length h
  simp [tmpPath, String.length_append] at h2
  exact absurd h2 (by decide)

theorem corruptPath_ne (p : String) : corruptPath p ≠ p := by
  intro h
  have h2 := congrArg String.length h
  simp [corruptPath, String.length_append] at h2
  exact absurd h2 (by decide)

/-- C1: save persists the aggregate by writing the serialized state to the
temporary sibling and renaming it over the canonical path; after save the
temporary file is gone, the canonical file parses as valid JSON for the
full aggregate, and a crash after the tmp write but before the rename
(the writeTmp stage) leaves the previous canonical file unchanged. -/
theorem save_atomic (fs : FileSystem) (p : String) (s : IssueState) :
    dictGet (save fs p s) (tmpPath p) = none
    ∧ dictGet (save fs p s) p = some (FileData.stateFile s)
    ∧ Option.bind (dictGet (save fs p s) p) parseState = some s
    ∧ dictGet (writeTmp fs p s) p = dictGet fs p := by
  have htmp : dictGet (writeTmp fs p s) (tmpPath p) = some (FileData.stateFile s) :=
    dictGet_set_self fs (tmpPath p) (FileData.stateFile s)
  have hsave : save fs p s
      = dictSet (dictDel (writeTmp fs p s) (tmpPath p)) p (FileData.stateFile s) := by
    simp [save, renameFile, htmp]
  refine ⟨?_, ?_, ?_, ?_⟩
  · rw [hsave, dictGet_set_ne _ _ _ _ (tmpPath_ne p)]
    exact dictGet_del_self _ _
  · rw [hsave]
    exact dictGet_set_self _ _ _
  · rw [hsave, dictGet_set_self]
    rfl
  · exact dictGet_set_ne _ _ _ _ fun h => tmpPath_ne p h.symm

/-- C2: load returns a fresh empty state when the backing file is absent;
when the file fails JSON parsing or schema validation it is renamed to the
.corrupt sibling preserving the original bytes (the canonical path no
longer exists) and a fresh empty state is returned; any other I/O error
propagates to the caller. -/
theorem load_self_heal (fs : FileSystem) (p raw e : String) :
    (dictGet fs p = none → load fs p = Except.ok (emptyIssueState, fs))
    ∧ (dictGet fs p = some (FileData.junk raw) →
        load fs p = Except.ok (emptyIssueState, renameFile fs p (corruptPath p))
        ∧ dictGet (renameFile fs p (corruptPath p)) (corruptPath p)
            = some (FileData.junk raw)
        ∧ dictGet (renameFile fs p (corruptPath p)) p = none)
    ∧ (dictGet fs p = some (FileData.unreadable e) → load fs p = Except.error e) := by
  refine ⟨fun h => by simp [load, h], fun h => ?_, fun h => by simp [load, h]⟩
  have hr : renameFile fs p (corruptPath p)
      = dictSet (dictDel fs p) (corruptPath p) (FileData.junk raw) := by
    simp [renameFile, h]
  refine ⟨by simp [load, h], ?_, ?_⟩
  · rw [hr]
    exact dictGet_set_self _ _ _
  · rw [hr, dictGet_set_ne _ _ _ _ fun hh => corruptPath_ne p hh.symm]
    exact dictGet_del_self _ _

/-- Witness for C2 at a concrete corrupted file. -/
theorem load_self_heal_witness :
    load fsJunkEx "s.json"
      = Except.ok (emptyIssueState, renameFile fsJunkEx "s.json" (corruptPath "s.json"))
    ∧ dictGet (renameFile fsJunkEx "s.json" (corruptPath "s.json"))
        (corruptPath "s.json") = some (FileData.junk "not json")
    ∧ dictGet (renameFile fsJunkEx "s.json" (corruptPath "s.json")) "s.json" = none :=
  (load_self_heal fsJunkEx "s.json" "not json" "err").2.1 rfl

/-- C4: the priority scorer is the pure function
severity_weight x log2(frequency + 1) x complexity_inverse x
recency_multiplier with the mapped weights of the spec, and it evaluates
to 18.0 on (high, frequency 3, small, created 8 days ago) and to 24.0 on
(critical, frequency 1, trivial, created today). -/
theorem priority_score_spec :
    severity_weight IssueSeverity.critical = 4
    ∧ severity_weight IssueSeverity.high = 3
    ∧ severity_weight IssueSeverity.medium = 2
    ∧ severity_weight IssueSeverity.low = 1
    ∧ complexity_inverse FixComplexity.trivial = 4
    ∧ complexity_inverse FixComplexity.small = 3
    ∧ complexity_inverse FixComplexity.medium = 2
    ∧ complexity_inverse FixComplexity.large = 1
    ∧ recency_multiplier 0 = 1.5
    ∧ recency_multiplier 8 = 1
    ∧ priority_score IssueSeverity.high 3 FixComplexity.small 8 = 18
    ∧ priority_score IssueSeverity.critical 1 FixComplexity.trivial 0 = 24 := by
  have hb : (1 : ℝ) < 2 := by norm_num
  have h4 : Real.logb 2 4 = 2 := by
    have h : (4 : ℝ) = 2 ^ (2 : ℕ) := by norm_num
    rw [h, Real.logb_pow, Real.logb_self_eq_one hb]
    norm_num
  have h2 : Real.logb 2 2 = 1 := Real.logb_self_eq_one hb
  refine ⟨rfl, rfl, rfl, rfl, rfl, rfl, rfl, rfl, by norm_num [recency_multiplier],
    by norm_num [recency_multiplier], ?_, ?_⟩
  · have hc : ((3 : ℕ) : ℝ) + 1 = 4 := by norm_num
    rw [priority_score, hc, h4]
    norm_num [severity_weight, complexity_inverse, recency_multiplier]
  · have hc : ((1 : ℕ) : ℝ) + 1 = 2 := by norm_num
    rw [priority_score, hc, h2]
    norm_num [severity_weight, complexity_inverse, recency_multiplier]

theorem dictDel_cons_self {α : Type} (t : List (String × α)) (k : String) (v : α) :
    dictDel ((k, v) :: t) k = dictDel t k := by
  simp [dictDel, List.filter_cons]

theorem dictDel_not_mem {α : Type} (m : List (String × α)) (k : String)
    (h : k ∉ m.map Prod.fst) : dictDel m k = m := by
  induction m with
  | nil => rfl
  | cons p t ih =>
    simp only [List.map_cons, List.mem_cons, not_or] at h
    have h1 : (p.1 != k) = true := by
      simp
      exact fun hh => h.1 hh.symm
    have ht := ih h.2
    simp only [dictDel, List.filter_cons, h1, if_true] at *
    rw [ht]

theorem importDraftCommit_ok {w : DraftWorld} {stem : String} {data : DraftData}
    {now : Int} {wc : DraftWorld} {issue : Issue}
    (h : importDraftCommit w stem data now = Except.ok (wc, issue)) :
    wc.drafts = w.drafts ∧ dictGet wc.state.issues issue.id = some issue
    ∧ import_draft w stem data now
        = Except.ok ({ wc with drafts := dictDel wc.drafts stem }, issue) := by
  revert h
  unfold importDraftCommit
  cases hres : (pyFalsyStr (draftFileId stem)).orElse (fun _ => data.id) with
  | none => intro h; cases h
  | some iid =>
    intro h
    have hwc : wc = commitWorld w iid data now := by cases h; rfl
    have hiss : issue = draftIssue iid data now := by cases h; rfl
    refine ⟨by rw [hwc]; rfl, ?_, ?_⟩
    · rw [hwc, hiss]
      exact dictGet_set_self _ _ _
    · simp only [import_draft, importDraftCommit, hres]
      rw [hwc, hiss]

theorem importDraftCommit_wf (w : DraftWorld) (stem : String) (data : DraftData)
    (now : Int) (hlen : 4 ≤ (pySplit stem '_').length)
    (hid : lastPart stem ≠ "") :
    importDraftCommit w stem data now
      = Except.ok (commitWorld w (lastPart stem) data now,
          draftIssue (lastPart stem) data now) := by
  unfold importDraftCommit
  have h1 : draftFileId stem = some (lastPart stem) := by
    simp [draftFileId, hlen]
  rw [h1]
  simp [pyFalsyStr, hid, Option.orElse]

theorem importAllDraftsGo_spec (snapshot : IssueState) (now : Int)
    (l : List (String × DraftData)) :
    ∀ (w : DraftWorld), w.drafts = l →
    (∀ p ∈ l, wellFormedStem p.1 = true) → (l.map Prod.fst).Nodup →
    ∃ w1 imported, importAllDraftsGo snapshot now w l = Except.ok (w1, imported)
      ∧ w1.drafts = []
      ∧ (∀ i ∈ imported, dictGet snapshot.issues i.id = none) := by
  induction l with
  | nil =>
    intro w hw _ _
    exact ⟨w, [], rfl, hw, by simp⟩
  | cons p rest ih =>
    obtain ⟨stem, data⟩ := p
    intro w hw hwf hnd
    have hwfh := hwf (stem, data) (by simp)
    simp only [wellFormedStem, Bool.and_eq_true, decide_eq_true_eq, bne_iff_ne,
      ne_eq] at hwfh
    obtain ⟨hlen, hid⟩ := hwfh
    have hnd1 : (stem :: rest.map Prod.fst).Nodup := by
      rw [List.map_cons] at hnd
      exact hnd
    have hnd2 := List.nodup_cons.mp hnd1
    have hdel : dictDel w.drafts stem = rest := by
      rw [hw, dictDel_cons_self, dictDel_not_mem _ _ hnd2.1]
    have hwfr : ∀ p ∈ rest, wellFormedStem p.1 = true :=
      fun q hq => hwf q (by simp [hq])
    by_cases hskip : dictHas snapshot.issues (lastPart stem) = true
    · have hred : importAllDraftsGo snapshot now w ((stem, data) :: rest)
          = importAllDraftsGo snapshot now { w with drafts := dictDel w.drafts stem } rest := by
        rw [importAllDraftsGo]
        rw [if_pos]
        simp [hlen, hskip]
      obtain ⟨w1, imported, hgo, hdr, himp⟩ :=
        ih { w with drafts := dictDel w.drafts stem } hdel hwfr hnd2.2
      exact ⟨w1, imported, by rw [hred, hgo], hdr, himp⟩
    · have hcommit := importDraftCommit_wf w stem data now hlen hid
      have hidraft := (importDraftCommit_ok hcommit).2.2
      have hnone : dictGet snapshot.issues (lastPart stem) = none := by
        revert hskip
        unfold dictHas
        cases dictGet snapshot.issues (lastPart stem) with
        | none => intro _; rfl
        | some v => intro hs; simp at hs
      have hcw : ({ commitWorld w (lastPart stem) data now with
          drafts := dictDel (commitWorld w (lastPart stem) data now).drafts stem }).drafts
          = rest := by
        show dictDel w.drafts stem = rest
        exact hdel
      obtain ⟨w2, imported, hgo, hdr, himp⟩ :=
        ih { commitWorld w (lastPart stem) data now with
              drafts := dictDel (commitWorld w (lastPart stem) data now).drafts stem }
          hcw hwfr hnd2.2
      refine ⟨w2, draftIssue (lastPart stem) data now :: imported, ?_, hdr, ?_⟩
      · have hred : importAllDraftsGo snapshot now w ((stem, data) :: rest)
            = match import_draft w stem data now with
              | Except.error e => Except.error e
              | Except.ok (w1x, issue) =>
                match importAllDraftsGo snapshot now w1x rest with
                | Except.error e => Except.error e
                | Except.ok (w2x, imp) => Except.ok (w2x, issue :: imp) := by
          rw [importAllDraftsGo]
          rw [if_neg]
          simp [hskip]
        rw [hred]
        simp only [hidraft, hgo]
      · intro i hi
        rcases List.mem_cons.mp hi with hh | hh
        · rw [hh]
          simpa [draftIssue] using hnone
        · exact himp i hh

/-- C3: import_all_drafts is idempotent with respect to issue creation:
importDraftCommit commits the issue into saved state while the source
file still exists and import_draft deletes the file only afterwards; on a
directory of well-formed uniquely named draft files, import_all_drafts
succeeds, never imports an issue whose id is already in the loaded state
(so a retry after a partially-completed import does not duplicate), leaves
no draft files behind, and a second call imports nothing. -/
theorem import_all_drafts_idempotent (w : DraftWorld) (now now2 : Int)
    (hwf : ∀ p ∈ w.drafts, wellFormedStem p.1 = true)
    (hnd : (w.drafts.map Prod.fst).Nodup) :
    (∀ stem data wc issue, importDraftCommit w stem data now = Except.ok (wc, issue) →
      wc.drafts = w.drafts ∧ dictGet wc.state.issues issue.id = some issue
      ∧ import_draft w stem data now
          = Except.ok ({ wc with drafts := dictDel wc.drafts stem }, issue))
    ∧ ∃ w1 imported, import_all_drafts w now = Except.ok (w1, imported)
      ∧ (∀ i ∈ imported, dictGet w.state.issues i.id = none)
      ∧ w1.drafts = []
      ∧ import_all_drafts w1 now2 = Except.ok (w1, []) := by
  refine ⟨fun stem data wc issue h => importDraftCommit_ok h, ?_⟩
  obtain ⟨w1, imported, hgo, hdr, himp⟩ :=
    importAllDraftsGo_spec w.state now w.drafts w rfl hwf hnd
  refine ⟨w1, imported, hgo, himp, hdr, ?_⟩
  unfold import_all_drafts
  rw [hdr]
  rfl

/-- Witness for C3 at a concrete partially-completed import: the draft
file with trailing id ab is still on disk while its issue is already in
state; the retry skips it. -/
theorem import_all_drafts_idempotent_witness :
    (∀ stem data wc issue,
      importDraftCommit retryWorldEx stem data 5 = Except.ok (wc, issue) →
      wc.drafts = retryWorldEx.drafts ∧ dictGet wc.state.issues issue.id = some issue
      ∧ import_draft retryWorldEx stem data 5
          = Except.ok ({ wc with drafts := dictDel wc.drafts stem }, issue))
    ∧ ∃ w1 imported, import_all_drafts retryWorldEx 5 = Except.ok (w1, imported)
      ∧ (∀ i ∈ imported, dictGet retryWorldEx.state.issues i.id = none)
      ∧ w1.drafts = []
      ∧ import_all_drafts w1 6 = Except.ok (w1, []) :=
  import_all_drafts_idempotent retryWorldEx 5 6 (by decide) (by decide)

/-- C7: when the prioritization gate is reached (issues to prioritize
exist and the agent returned a result) and the human rejects,
run_prioritization returns a non-success result and the persisted state is
exactly the input state: no issue advances to prioritized through this
call, and everything committed by earlier stages stays as it was. -/
theorem prioritization_gate_rejection (st : IssueState) (res : PrioResult) (now : Int)
    (hne : (toPrioritize st).isEmpty = false) :
    run_prioritization st (some res) false now
      = ({ success := false, message := "Prioritization rejected by user." }, st) := by
  simp [run_prioritization, hne]

/-- Witness for C7 at a concrete state with one clustered issue. -/
theorem prioritization_gate_rejection_witness :
    run_prioritization exC5State (some exC5Patch) false 7
      = ({ success := false, message := "Prioritization rejected by user." }, exC5State) :=
  prioritization_gate_rejection exC5State exC5Patch 7 (by decide)

/-- C9 counterexample: the claim says defer_issue and wontfix_issue refuse
issues outside draft, triaged, clustered or prioritized; the code moves a
resolved issue straight to deferred respectively wont_fix. -/
theorem defer_wontfix_counterexample :
    (statusAt exC9State "r1" = some IssueStatus.resolved)
    ∧ statusAt (defer_issue exC9State "r1" 3).2 "r1" = some IssueStatus.deferred
    ∧ statusAt (wontfix_issue exC9State "r1" 3).2 "r1" = some IssueStatus.wont_fix := by
  exact ⟨rfl, rfl, rfl⟩

/-- C9 amended: defer_issue and wontfix_issue enforce no transition
legality at the point of mutation: for any existing issue, whatever its
current status, they set deferred respectively wont_fix and report
success; unknown ids fail without mutating the state. -/
theorem defer_wontfix_unfiltered (st : IssueState) (iid : String) (now : Int)
    (i : Issue) (h : dictGet st.issues iid = some i) :
    defer_issue st iid now
      = ({ success := true, message := "Issue deferred." },
        { st with issues := dictSet st.issues iid (setStatus i IssueStatus.deferred now) })
    ∧ wontfix_issue st iid now
      = ({ success := true, message := "Issue marked as wont fix." },
        { st with issues := dictSet st.issues iid (setStatus i IssueStatus.wont_fix now) })
    ∧ (∀ j, dictGet st.issues j = none →
        defer_issue st j now = ({ success := false, message := "Issue not found." }, st)
        ∧ wontfix_issue st j now
            = ({ success := false, message := "Issue not found." }, st)) := by
  refine ⟨by simp [defer_issue, h], by simp [wontfix_issue, h], fun j hj => ?_⟩
  exact ⟨by simp [defer_issue, hj], by simp [wontfix_issue, hj]⟩

/-- Witness for C9 amended at the resolved issue r1. -/
theorem defer_wontfix_unfiltered_witness :
    defer_issue exC9State "r1" 3
      = ({ success := true, message := "Issue deferred." },
        { exC9State with issues := dictSet exC9State.issues "r1" (setStatus exResolvedIssue IssueStatus.deferred 3) })
    ∧ wontfix_issue exC9State "r1" 3
      = ({ success := true, message := "Issue marked as wont fix." },
        { exC9State with issues := dictSet exC9State.issues "r1" (setStatus exResolvedIssue IssueStatus.wont_fix 3) })
    ∧ (∀ j, dictGet exC9State.issues j = none →
        defer_issue exC9State j 3
            = ({ success := false, message := "Issue not found." }, exC9State)
        ∧ wontfix_issue exC9State j 3
            = ({ success := false, message := "Issue not found." }, exC9State)) :=
  defer_wontfix_unfiltered exC9State "r1" 3 exResolvedIssue rfl

/-- C10: the published projection of a non-draft issue contains exactly
the nine sanitized fields and never the context: two issues differing
only in their context maps publish identically, and the output of
publish_issue is precisely the projection record. -/
theorem publish_excludes_context (i : Issue) (c c2 : List (String × String)) :
    publish_issue { i with context := c } = publish_issue { i with context := c2 }
    ∧ (i.status ≠ IssueStatus.draft →
        publish_issue i = Except.ok {
          id := i.id
          title := i.title
          description := i.description
          category := i.category
          tags := i.tags
          affected_files := i.affected_files
          severity := match i.severity with
            | some s => severityValue s
            | none => "unknown"
          frequency := i.frequency
          created := i.created }) := by
  constructor
  · rfl
  · intro h
    simp [publish_issue, h]

/-- Witness for C10 at a prioritized issue with two different contexts. -/
theorem publish_excludes_context_witness :
    publish_issue { exC8Member with context := [("secret", "raw data")] }
      = publish_issue { exC8Member with context := [] }
    ∧ publish_issue exC8Member = Except.ok {
        id := "p1"
        title := "t"
        description := "d"
        category := "bug"
        tags := []
        affected_files := []
        severity := "unknown"
        frequency := 1
        created := 0 } :=
  ⟨(publish_excludes_context exC8Member [("secret", "raw data")] []).1,
    (publish_excludes_context exC8Member [("secret", "raw data")] []).2 (by decide)⟩

/-- C8: evaluating run_resolution on an approved singleton cluster with a
successful implemented payload: the member and the cluster are marked
resolved and notes and commit recorded, but nothing is appended to the
changelog, which stays absent, although _append_changelog (reachable only
through the never-called resolve_issue) would have produced the
day-grouped entry shown in the last conjunct. -/
theorem run_resolution_no_changelog :
    (run_resolutionW exC8World (some exC8Payload) true none "cl1").1
      = { success := true, message := "Resolved cluster." }
    ∧ dictGet (run_resolutionW exC8World (some exC8Payload) true none "cl1").2.state.issues "p1"
        = some { exC8Member with
            status := IssueStatus.resolved
            resolved_by := some "abc123"
            resolution_notes := some "fixed it" }
    ∧ dictGet (run_resolutionW exC8World (some exC8Payload) true none "cl1").2.state.clusters "cl1"
        = some { exC8Cluster with status := "resolved" }
    ∧ (run_resolutionW exC8World (some exC8Payload) true none "cl1").2.changelog = none
    ∧ appendChangelog none "p1" "fixed it" "2026-01-09"
        = some "# Issue Changelog\n\n## 2026-01-09\n- **p1**: fixed it\n" := by
  refine ⟨rfl, by decide, by decide, rfl, by decide⟩

theorem dictGet_mem {α : Type} {m : List (String × α)} {k : String} {v : α}
    (h : dictGet m k = some v) : (k, v) ∈ m := by
  induction m with
  | nil => cases h
  | cons p t ih =>
    rw [dictGet] at h
    by_cases hp : p.1 = k
    · rw [if_pos hp] at h
      exact List.mem_cons.mpr (Or.inl (Prod.ext_iff.mpr ⟨hp.symm, (Option.some.inj h).symm⟩))
    · rw [if_neg hp] at h
      exact List.mem_cons.mpr (Or.inr (ih h))

theorem mem_dictSet {α : Type} {m : List (String × α)} {k : String} {v : α} :
    ∀ q ∈ dictSet m k v, q ∈ m ∨ q = (k, v) := by
  induction m with
  | nil =>
    intro q hq
    rw [dictSet] at hq
    right
    simpa using hq
  | cons p t ih =>
    intro q hq
    rw [dictSet] at hq
    by_cases hp : p.1 = k
    · rw [if_pos hp] at hq
      rcases List.mem_cons.mp hq with h | h
      · right; exact h
      · left; exact List.mem_cons.mpr (Or.inr h)
    · rw [if_neg hp] at hq
      rcases List.mem_cons.mp hq with h | h
      · left; exact List.mem_cons.mpr (Or.inl h)
      · rcases ih q h with h2 | h2
        · left; exact List.mem_cons.mpr (Or.inr h2)
        · right; exact h2

theorem resolveMember_score (r : Option ResPayload) (i : Issue) :
    (resolveMember r i).priority_score = i.priority_score := by
  rcases r with _ | p
  · rfl
  · rcases p with ⟨na, c, n⟩
    rcases c with _ | c <;> rcases n with _ | n <;> rfl

theorem scoreAt_finish (st : IssueState) (cluster : IssueCluster) (cid : String)
    (r : Option ResPayload) (iid : String) :
    scoreAt (finishResolution st cluster cid r) iid = scoreAt st iid := by
  have key : ∀ (ids : List String) (m : List (String × Issue)),
      (dictGet (ids.foldl (fun m2 jid =>
        match dictGet m2 jid with
        | some i => dictSet m2 jid (resolveMember r i)
        | none => m2) m) iid).bind Issue.priority_score
      = (dictGet m iid).bind Issue.priority_score := by
    intro ids
    induction ids with
    | nil => intro m; rfl
    | cons jid rest ih =>
      intro m
      rw [List.foldl_cons]
      cases hj : dictGet m jid with
      | none =>
        simp only [hj]
        exact ih m
      | some i =>
        simp only [hj]
        rw [ih (dictSet m jid (resolveMember r i))]
        by_cases hiid : iid = jid
        · subst hiid
          rw [dictGet_set_self, hj]
          simp [resolveMember_score]
        · rw [dictGet_set_ne _ _ _ _ hiid]
  exact key cluster.issue_ids st.issues

theorem clusterOk_eq (st : IssueState) (c : IssueCluster) :
    clusterOk st c = c.issue_ids.all (fun iid =>
      match scoreAt st iid with
      | some p => decide (p ≤ c.aggregate_priority)
      | none => true) := by
  unfold clusterOk scoreAt
  congr 1
  funext iid
  cases hd : dictGet st.issues iid with
  | none => rfl
  | some i =>
    cases hs : i.priority_score <;> simp [hs]

theorem clusterOk_of_scoreAt (st st2 : IssueState) (c : IssueCluster)
    (h : ∀ iid, scoreAt st2 iid = scoreAt st iid ∨ scoreAt st2 iid = none)
    (hok : clusterOk st c = true) : clusterOk st2 c = true := by
  rw [clusterOk_eq] at *
  rw [List.all_eq_true] at *
  intro iid hiid
  have h1 := hok iid hiid
  rcases h iid with h2 | h2
  · rw [h2]
    exact h1
  · rw [h2]

theorem aggregateInvariant_iff (st : IssueState) :
    aggregateInvariant st = true ↔ ∀ p ∈ st.clusters, clusterOk st p.2 = true := by
  unfold aggregateInvariant
  exact List.all_eq_true

theorem finish_preserves_inv (st : IssueState) (cluster : IssueCluster) (cid : String)
    (r : Option ResPayload) (hc : dictGet st.clusters cid = some cluster)
    (hinv : aggregateInvariant st = true) :
    aggregateInvariant (finishResolution st cluster cid r) = true := by
  rw [aggregateInvariant_iff] at *
  intro p hp
  have hscores : ∀ iid, scoreAt (finishResolution st cluster cid r) iid = scoreAt st iid
      ∨ scoreAt (finishResolution st cluster cid r) iid = none :=
    fun iid => Or.inl (scoreAt_finish st cluster cid r iid)
  have hmem : p ∈ dictSet st.clusters cid { cluster with status := "resolved" } := hp
  rcases mem_dictSet p hmem with h2 | h2
  · exact clusterOk_of_scoreAt st _ p.2 hscores (hinv p h2)
  · have hokc : clusterOk st cluster = true := hinv (cid, cluster) (dictGet_mem hc)
    rw [h2]
    exact clusterOk_of_scoreAt st _ _ hscores hokc

theorem run_resolution_cases (st : IssueState) (res1 : Option ResPayload) (g : Bool)
    (res2 : Option ResPayload) (cid : String) :
    ((run_resolution st res1 g res2 cid).1.success = false
      ∧ (run_resolution st res1 g res2 cid).2 = st)
    ∨ ((run_resolution st res1 g res2 cid).1.success = true
      ∧ ∃ cluster r, dictGet st.clusters cid = some cluster
        ∧ (run_resolution st res1 g res2 cid).2 = finishResolution st cluster cid r) := by
  unfold run_resolution
  split
  · left; exact ⟨rfl, rfl⟩
  · rename_i cluster heq
    split
    · left; exact ⟨rfl, rfl⟩
    · split
      · left; exact ⟨rfl, rfl⟩
      · rename_i r
        split
        · split
          · right; exact ⟨rfl, cluster, res2, heq, rfl⟩
          · left; exact ⟨rfl, rfl⟩
        · right; exact ⟨rfl, cluster, some r, heq, rfl⟩

theorem run_resolution_preserves_inv (st : IssueState) (res1 : Option ResPayload)
    (g : Bool) (res2 : Option ResPayload) (cid : String)
    (hinv : aggregateInvariant st = true) :
    aggregateInvariant (run_resolution st res1 g res2 cid).2 = true := by
  rcases run_resolution_cases st res1 g res2 cid with ⟨_, h⟩ | ⟨_, cluster, r, hc, h⟩
  · rw [h]; exact hinv
  · rw [h]; exact finish_preserves_inv st cluster cid r hc hinv

theorem scoreAt_fastTrack (st : IssueState) (i : Issue) (cid : String) (iid : String)
    (hscore : i.priority_score = none) :
    scoreAt (fastTrackState st i cid) iid = scoreAt st iid
    ∨ scoreAt (fastTrackState st i cid) iid = none := by
  unfold scoreAt fastTrackState
  dsimp only
  by_cases h : iid = i.id
  · right
    subst h
    rw [dictGet_set_self]
    simp [ftIssue, hscore]
  · left
    rw [dictGet_set_ne _ _ _ _ h]

theorem fastTrack_preserves_inv (st : IssueState) (i : Issue) (cid : String)
    (hinv : aggregateInvariant st = true) (hscore : i.priority_score = none) :
    aggregateInvariant (fastTrackState st i cid) = true := by
  rw [aggregateInvariant_iff] at *
  intro p hp
  have hsc := fun iid => scoreAt_fastTrack st i cid iid hscore
  have hmem : p ∈ dictSet st.clusters cid (ftCluster i cid) := hp
  rcases mem_dictSet p hmem with h2 | h2
  · exact clusterOk_of_scoreAt st _ p.2 hsc (hinv p h2)
  · rw [h2]
    rw [clusterOk_eq, List.all_eq_true]
    intro iid hiid
    have hii : iid = i.id := by simpa [ftCluster] using hiid
    subst hii
    have hnone : scoreAt (fastTrackState st i cid) i.id = none := by
      unfold scoreAt fastTrackState
      dsimp only
      rw [dictGet_set_self]
      simp [ftIssue, hscore]
    rw [hnone]

/-- C5 counterexample: the claim says every state reachable through the
prioritization merge keeps aggregate_priority at least every member score;
from a state satisfying the invariant, the approved merge of an agent
output that scores member i at 5 while setting cluster c aggregate to 1 is
applied verbatim and the persisted state violates the invariant. -/
theorem aggregate_priority_counterexample :
    aggregateInvariant exC5State = true
    ∧ (run_prioritization exC5State (some exC5Patch) true 0).1
        = { success := true, message := "Prioritization approved." }
    ∧ aggregateInvariant (run_prioritization exC5State (some exC5Patch) true 0).2 = false := by
  exact ⟨by decide, by decide, by decide⟩

/-- C5 amended: fast-track cluster creation preserves the aggregate
invariant whenever the fast-tracked issue has no priority score (the
synthesized singleton cluster carries aggregate 10 over a scoreless
member), and resolution preserves it unconditionally, so the whole
fast-track path preserves it; the prioritization merge, by contrast,
copies agent-supplied scores verbatim and does not enforce the invariant
(see the counterexample). -/
theorem aggregate_priority_fast_track (st : IssueState) (i : Issue) (cid : String)
    (res1 : Option ResPayload) (g : Bool) (res2 : Option ResPayload) (rcid : String)
    (o : Oracle) (hinv : aggregateInvariant st = true)
    (hscore : i.priority_score = none) :
    aggregateInvariant (fastTrackState st i cid) = true
    ∧ aggregateInvariant (run_resolution st res1 g res2 rcid).2 = true
    ∧ aggregateInvariant (fast_track_resolve o st i).2 = true := by
  refine ⟨fastTrack_preserves_inv st i cid hinv hscore,
    run_resolution_preserves_inv st res1 g res2 rcid hinv, ?_⟩
  unfold fast_track_resolve
  exact run_resolution_preserves_inv _ _ _ _ _
    (fastTrack_preserves_inv st i _ hinv hscore)

/-- Witness for C5 amended at a concrete state, scoreless critical issue
and live oracle. -/
theorem aggregate_priority_fast_track_witness :
    aggregateInvariant (fastTrackState exC5State exCritIssue "z") = true
    ∧ aggregateInvariant (run_resolution exC5State none false none "q").2 = true
    ∧ aggregateInvariant (fast_track_resolve exC6Oracle exC5State exCritIssue).2 = true :=
  aggregate_priority_fast_track exC5State exCritIssue "z" none false none "q"
    exC6Oracle (by decide) rfl

theorem resolveMember_status (r : Option ResPayload) (i : Issue) :
    (resolveMember r i).status = IssueStatus.resolved := by
  rcases r with _ | p
  · rfl
  · rcases p with ⟨na, c, n⟩
    rcases c with _ | c <;> rcases n with _ | n <;> rfl

theorem finish_singleton (st1 : IssueState) (c : IssueCluster) (cid : String)
    (r : Option ResPayload) (iid : String) (hc : c.issue_ids = [iid]) (i2 : Issue)
    (hi : dictGet st1.issues iid = some i2) :
    statusAt (finishResolution st1 c cid r) iid = some IssueStatus.resolved
    ∧ ∀ k, k ≠ iid →
        dictGet (finishResolution st1 c cid r).issues k = dictGet st1.issues k := by
  have hiss : (finishResolution st1 c cid r).issues
      = c.issue_ids.foldl (fun m2 jid =>
          match dictGet m2 jid with
          | some i => dictSet m2 jid (resolveMember r i)
          | none => m2) st1.issues := rfl
  rw [hc] at hiss
  simp only [List.foldl_cons, List.foldl_nil, hi] at hiss
  constructor
  · unfold statusAt
    rw [hiss, dictGet_set_self]
    simp [resolveMember_status]
  · intro k hk
    rw [hiss, dictGet_set_ne _ _ _ _ hk]

theorem fast_track_single (o : Oracle) (st : IssueState) (i : Issue) :
    ((fast_track_resolve o st i).1.success = true →
      statusAt (fast_track_resolve o st i).2 i.id = some IssueStatus.resolved)
    ∧ ((fast_track_resolve o st i).1.success = false →
      statusAt (fast_track_resolve o st i).2 i.id = some IssueStatus.prioritized)
    ∧ (∀ k, k ≠ i.id →
      dictGet (fast_track_resolve o st i).2.issues k = dictGet st.issues k) := by
  have hii : dictGet (fastTrackState st i (o.freshClusterId i.id)).issues i.id
      = some (ftIssue i (o.freshClusterId i.id)) := by
    unfold fastTrackState
    dsimp only
    exact dictGet_set_self _ _ _
  have hfr : ∀ k, k ≠ i.id →
      dictGet (fastTrackState st i (o.freshClusterId i.id)).issues k
        = dictGet st.issues k := by
    intro k hk
    unfold fastTrackState
    dsimp only
    exact dictGet_set_ne _ _ _ _ hk
  have hcl : dictGet (fastTrackState st i (o.freshClusterId i.id)).clusters
      (o.freshClusterId i.id) = some (ftCluster i (o.freshClusterId i.id)) := by
    unfold fastTrackState
    dsimp only
    exact dictGet_set_self _ _ _
  have heq : fast_track_resolve o st i
      = run_resolution (fastTrackState st i (o.freshClusterId i.id))
          (o.resolution (o.freshClusterId i.id) false)
          (o.gatePlan (o.freshClusterId i.id))
          (o.resolution (o.freshClusterId i.id) true) (o.freshClusterId i.id) := rfl
  rw [heq]
  rcases run_resolution_cases (fastTrackState st i (o.freshClusterId i.id))
      (o.resolution (o.freshClusterId i.id) false)
      (o.gatePlan (o.freshClusterId i.id))
      (o.resolution (o.freshClusterId i.id) true) (o.freshClusterId i.id) with
    ⟨hsf, hst⟩ | ⟨hsu, cluster, rr, hcc, hfin⟩
  · refine ⟨fun h => absurd (hsf.symm.trans h) (by decide), fun _ => ?_, fun k hk => ?_⟩
    · unfold statusAt
      rw [hst, hii]
      rfl
    · rw [hst]
      exact hfr k hk
  · rw [hcl] at hcc
    have hcleq : ftCluster i (o.freshClusterId i.id) = cluster := Option.some.inj hcc
    obtain ⟨hstat, hframe⟩ := finish_singleton (fastTrackState st i (o.freshClusterId i.id))
      (ftCluster i (o.freshClusterId i.id)) (o.freshClusterId i.id) rr i.id rfl _ hii
    rw [← hcleq] at hfin
    refine ⟨fun _ => ?_, fun h => absurd (hsu.symm.trans h) (by decide), fun k hk => ?_⟩
    · rw [hfin]
      exact hstat
    · rw [hfin, hframe k hk]
      exact hfr k hk

theorem ftLoop_fails_mono (o : Oracle) (l : List Issue) :
    ∀ (acc : IssueState × List (String × String)) (x : String × String),
    x ∈ acc.2 → x ∈ (l.foldl (ftStep o) acc).2 := by
  induction l with
  | nil => intro acc x hx; simpa using hx
  | cons j rest ih =>
    intro acc x hx
    rw [List.foldl_cons]
    apply ih
    unfold ftStep
    dsimp only
    split
    · exact hx
    · exact List.mem_append_left _ hx

theorem ftLoop_frame (o : Oracle) (l : List Issue) :
    ∀ (acc : IssueState × List (String × String)) (k : String), k ∉ l.map Issue.id →
    dictGet ((l.foldl (ftStep o) acc).1).issues k = dictGet acc.1.issues k := by
  induction l with
  | nil => intro acc k _; rfl
  | cons j rest ih =>
    intro acc k hk
    simp only [List.map_cons, List.mem_cons, not_or] at hk
    rw [List.foldl_cons]
    rw [ih (ftStep o acc j) k hk.2]
    show dictGet (fast_track_resolve o acc.1 j).2.issues k = dictGet acc.1.issues k
    exact (fast_track_single o acc.1 j).2.2 k hk.1

theorem ftLoop_element (o : Oracle) (l : List Issue) :
    ∀ (acc : IssueState × List (String × String)),
    (l.map Issue.id).Nodup → ∀ i ∈ l,
    statusAt ((l.foldl (ftStep o) acc).1) i.id = some IssueStatus.resolved
    ∨ i.id ∈ ((l.foldl (ftStep o) acc).2).map Prod.fst := by
  induction l with
  | nil => intro acc _ i hi; cases hi
  | cons j rest ih =>
    intro acc hnd i hi
    have hnd1 : j.id ∉ rest.map Issue.id ∧ (rest.map Issue.id).Nodup := by
      rw [List.map_cons] at hnd
      exact List.nodup_cons.mp hnd
    rw [List.foldl_cons]
    rcases List.mem_cons.mp hi with h | h
    · subst h
      cases hs : (fast_track_resolve o acc.1 i).1.success
      · right
        have hmem : (i.id, (fast_track_resolve o acc.1 i).1.message)
            ∈ (ftStep o acc i).2 := by
          unfold ftStep
          dsimp only
          rw [hs]
          simp
        have hfin := ftLoop_fails_mono o rest (ftStep o acc i) _ hmem
        exact List.mem_map.mpr ⟨_, hfin, rfl⟩
      · left
        have hres : statusAt (ftStep o acc i).1 i.id = some IssueStatus.resolved :=
          (fast_track_single o acc.1 i).1 hs
        unfold statusAt at *
        rw [ftLoop_frame o rest (ftStep o acc i) i.id hnd1.1]
        exact hres
    · exact ih (ftStep o acc j) hnd1.2 i h

theorem applyClusterIssuePatch_frame (st : IssueState) (now : Int)
    (p : ClusterIssuePatch) (iid : String) (h : pyFalsyStr p.id ≠ some iid) :
    dictGet (applyClusterIssuePatch st now p).issues iid = dictGet st.issues iid := by
  unfold applyClusterIssuePatch
  cases hp : pyFalsyStr p.id with
  | none => rfl
  | some jid =>
    have hne : iid ≠ jid := fun hh => h (by rw [hp, hh])
    cases hq : dictGet st.issues jid with
    | none => simp only [hq]
    | some issue =>
      simp only [hq]
      exact dictGet_set_ne _ _ _ _ hne

theorem clusterDefs_issues (cps : List ClusterPatch) :
    ∀ st : IssueState, (cps.foldl applyClusterDef st).issues = st.issues := by
  induction cps with
  | nil => intro st; rfl
  | cons c rest ih =>
    intro st
    rw [List.foldl_cons, ih]
    rfl

theorem clusterMerge_frame (now : Int) (iid : String) (ps : List ClusterIssuePatch) :
    ∀ st : IssueState, (∀ p ∈ ps, pyFalsyStr p.id ≠ some iid) →
    dictGet ((ps.foldl (fun acc p => applyClusterIssuePatch acc now p) st).issues) iid
      = dictGet st.issues iid := by
  induction ps with
  | nil => intro st _; rfl
  | cons p rest ih =>
    intro st h
    rw [List.foldl_cons, ih _ (fun q hq => h q (List.mem_cons.mpr (Or.inr hq)))]
    exact applyClusterIssuePatch_frame st now p iid (h p (List.mem_cons.mpr (Or.inl rfl)))

theorem run_clustering_frame (st : IssueState) (agent : Option ClusteringResult)
    (now : Int) (iid : String)
    (h : ∀ cr, agent = some cr → ∀ p ∈ cr.issues, pyFalsyStr p.id ≠ some iid) :
    dictGet (run_clustering st agent now).2.issues iid = dictGet st.issues iid := by
  unfold run_clustering
  split
  · rfl
  · cases agent with
    | none => rfl
    | some cr =>
      show dictGet ((cr.issues.foldl (fun acc p => applyClusterIssuePatch acc now p)
        (cr.clusters.foldl applyClusterDef st)).issues) iid = dictGet st.issues iid
      rw [clusterMerge_frame now iid cr.issues _ (h cr rfl)]
      rw [clusterDefs_issues]

theorem applyPrioIssuePatch_frame (st : IssueState) (now : Int)
    (p : PrioIssuePatch) (iid : String) (h : pyFalsyStr p.id ≠ some iid) :
    dictGet (applyPrioIssuePatch st now p).issues iid = dictGet st.issues iid := by
  unfold applyPrioIssuePatch
  cases hp : pyFalsyStr p.id with
  | none => rfl
  | some jid =>
    have hne : iid ≠ jid := fun hh => h (by rw [hp, hh])
    cases hq : dictGet st.issues jid with
    | none => simp only [hq]
    | some issue =>
      simp only [hq]
      exact dictGet_set_ne _ _ _ _ hne

theorem applyPrioClusterPatch_issues (st : IssueState) (p : PrioClusterPatch) :
    (applyPrioClusterPatch st p).issues = st.issues := by
  unfold applyPrioClusterPatch
  cases hp : (pyFalsyStr p.id).orElse (fun _ => pyFalsyStr p.cluster_id) with
  | none => rfl
  | some cid =>
    cases hq : dictGet st.clusters cid with
    | none => simp only [hq]
    | some cluster => simp only [hq]

theorem prioClusterMerge_issues (cps : List PrioClusterPatch) :
    ∀ st : IssueState, (cps.foldl applyPrioClusterPatch st).issues = st.issues := by
  induction cps with
  | nil => intro st; rfl
  | cons c rest ih =>
    intro st
    rw [List.foldl_cons, ih]
    exact applyPrioClusterPatch_issues st c

theorem prioMerge_frame (now : Int) (iid : String) (ps : List PrioIssuePatch) :
    ∀ st : IssueState, (∀ p ∈ ps, pyFalsyStr p.id ≠ some iid) →
    dictGet ((ps.foldl (fun acc p => applyPrioIssuePatch acc now p) st).issues) iid
      = dictGet st.issues iid := by
  induction ps with
  | nil => intro st _; rfl
  | cons p rest ih =>
    intro st h
    rw [List.foldl_cons, ih _ (fun q hq => h q (List.mem_cons.mpr (Or.inr hq)))]
    exact applyPrioIssuePatch_frame st now p iid (h p (List.mem_cons.mpr (Or.inl rfl)))

theorem run_prioritization_frame (st : IssueState) (agent : Option PrioResult)
    (gate : Bool) (now : Int) (iid : String)
    (h : ∀ pr, agent = some pr → ∀ p ∈ pr.issues, pyFalsyStr p.id ≠ some iid) :
    dictGet (run_prioritization st agent gate now).2.issues iid
      = dictGet st.issues iid := by
  unfold run_prioritization
  split
  · rfl
  · cases agent with
    | none => rfl
    | some pr =>
      cases gate with
      | false => rfl
      | true =>
        show dictGet ((pr.clusters.foldl applyPrioClusterPatch
          (pr.issues.foldl (fun acc p => applyPrioIssuePatch acc now p) st)).issues) iid
            = dictGet st.issues iid
        rw [prioClusterMerge_issues]
        exact prioMerge_frame now iid pr.issues st (h pr rfl)

theorem finish_keeps_resolved (st : IssueState) (c : IssueCluster) (cid : String)
    (r : Option ResPayload) (iid : String)
    (h : statusAt st iid = some IssueStatus.resolved) :
    statusAt (finishResolution st c cid r) iid = some IssueStatus.resolved := by
  have key : ∀ (ids : List String) (m : List (String × Issue)),
      (dictGet m iid).map Issue.status = some IssueStatus.resolved →
      (dictGet (ids.foldl (fun m2 jid =>
        match dictGet m2 jid with
        | some i => dictSet m2 jid (resolveMember r i)
        | none => m2) m) iid).map Issue.status = some IssueStatus.resolved := by
    intro ids
    induction ids with
    | nil => intro m hm; exact hm
    | cons jid rest ih =>
      intro m hm
      rw [List.foldl_cons]
      apply ih
      cases hj : dictGet m jid with
      | none => simpa [hj] using hm
      | some i =>
        simp only [hj]
        by_cases hk : iid = jid
        · subst hk
          rw [dictGet_set_self]
          simp [resolveMember_status]
        · rw [dictGet_set_ne _ _ _ _ hk]
          exact hm
  exact key c.issue_ids st.issues h

theorem run_resolution_keeps_resolved (st : IssueState) (res1 : Option ResPayload)
    (g : Bool) (res2 : Option ResPayload) (cid : String) (iid : String)
    (h : statusAt st iid = some IssueStatus.resolved) :
    statusAt (run_resolution st res1 g res2 cid).2 iid
      = some IssueStatus.resolved := by
  rcases run_resolution_cases st res1 g res2 cid with ⟨_, hst⟩ | ⟨_, cluster, r, _, hfin⟩
  · rw [hst]; exact h
  · rw [hfin]; exact finish_keeps_resolved st cluster cid r iid h

theorem resolutionLoop_keeps_resolved (o : Oracle) (iid : String)
    (cs : List IssueCluster) :
    ∀ st : IssueState, statusAt st iid = some IssueStatus.resolved →
    statusAt (cs.foldl (fun acc c =>
      (run_resolution acc (o.resolution c.id false) (o.gatePlan c.id)
        (o.resolution c.id true) c.id).2) st) iid = some IssueStatus.resolved := by
  induction cs with
  | nil => intro st h; exact h
  | cons c rest ih =>
    intro st h
    rw [List.foldl_cons]
    exact ih _ (run_resolution_keeps_resolved _ _ _ _ _ _ h)

theorem run_clustering_success (st : IssueState) (cr : ClusteringResult) (now : Int) :
    (run_clustering st (some cr) now).1.success = true := by
  unfold run_clustering
  split
  · rfl
  · rfl

theorem run_prioritization_success (st : IssueState) (pr : PrioResult) (now : Int) :
    (run_prioritization st (some pr) true now).1.success = true := by
  unfold run_prioritization
  split
  · rfl
  · rfl

theorem processAfterTriage_fails (o : Oracle) (w1 : DraftWorld) (now : Int) :
    (processAfterTriage o w1 now).ftFailures
      = (ftLoop o w1.state (criticalIssues w1.state)).2 := by
  simp only [processAfterTriage]
  split
  · split
    · split
      · rfl
      · rfl
    · rfl
  · rfl

theorem processAfterTriage_critical (o : Oracle) (w1 : DraftWorld) (now : Int)
    (i : Issue) (hi : i ∈ criticalIssues w1.state)
    (hnd : ((criticalIssues w1.state).map Issue.id).Nodup)
    (hcl : ∀ cr, o.clustering = some cr → ∀ p ∈ cr.issues, pyFalsyStr p.id ≠ some i.id)
    (hpr : ∀ pr, o.prioritization = some pr → ∀ p ∈ pr.issues, pyFalsyStr p.id ≠ some i.id) :
    statusAt (processAfterTriage o w1 now).world.state i.id = some IssueStatus.resolved
    ∨ i.id ∈ (processAfterTriage o w1 now).ftFailures.map Prod.fst := by
  rcases ftLoop_element o (criticalIssues w1.state) (w1.state, []) hnd i hi with hres | hfail
  · left
    have hres2 : statusAt (ftLoop o w1.state (criticalIssues w1.state)).1 i.id
        = some IssueStatus.resolved := hres
    have h2 : statusAt (run_clustering (ftLoop o w1.state (criticalIssues w1.state)).1
        o.clustering now).2 i.id = some IssueStatus.resolved := by
      unfold statusAt at hres2 ⊢
      rw [run_clustering_frame _ _ _ _ hcl]
      exact hres2
    have h3 : statusAt (run_prioritization
        (run_clustering (ftLoop o w1.state (criticalIssues w1.state)).1 o.clustering now).2
        o.prioritization o.gatePrio now).2 i.id = some IssueStatus.resolved := by
      unfold statusAt at h2 ⊢
      rw [run_prioritization_frame _ _ _ _ _ hpr]
      exact h2
    simp only [processAfterTriage]
    split
    · split
      · split
        · exact h3
        · exact resolutionLoop_keeps_resolved o i.id _ _ h3
      · exact h3
    · exact h2
  · right
    rw [processAfterTriage_fails]
    exact hfail

theorem processAfterTriage_success (o : Oracle) (w1 : DraftWorld) (now : Int)
    (cr : ClusteringResult) (pr : PrioResult)
    (hc : o.clustering = some cr) (hp : o.prioritization = some pr)
    (hg : o.gatePrio = true) :
    (processAfterTriage o w1 now).result.success = true := by
  have h1 : (run_clustering (ftLoop o w1.state (criticalIssues w1.state)).1
      o.clustering now).1.success = true := by
    rw [hc]
    exact run_clustering_success _ _ _
  have h2 : (run_prioritization
      (run_clustering (ftLoop o w1.state (criticalIssues w1.state)).1 o.clustering now).2
      o.prioritization o.gatePrio now).1.success = true := by
    rw [hp, hg]
    exact run_prioritization_success _ _ _
  simp only [processAfterTriage]
  rw [if_pos h1, if_pos h2]
  split
  · rfl
  · rfl

/-- C6 amended: for every issue triaged critical after the triage stage of
process, a singleton cluster with status approved and aggregate_priority
pinned to 10.0 is synthesized, the issue is advanced to prioritized and
resolution attempted immediately; provided the clustering and
prioritization agent outputs patch only issues other than the fast-tracked
ones (the counterexample shows an output naming a fast-tracked id breaks
the claim), by the end of the run the issue is resolved or its id is in
the recorded fast-track failure list; and individual fast-track failures
never abort the remaining pipeline: with live clustering and
prioritization agents and an approving gate the run returns success
whatever the resolution outcomes. -/
theorem critical_fast_track_end_state (o : Oracle) (w : DraftWorld) (now : Int)
    (r1 : WorkflowResult) (w1 : DraftWorld) (i : Issue)
    (ht : run_triage w o.triage now = Except.ok (r1, w1))
    (hs : r1.success = true)
    (hi : i ∈ criticalIssues w1.state)
    (hnd : ((criticalIssues w1.state).map Issue.id).Nodup)
    (hcl : ∀ cr, o.clustering = some cr → ∀ p ∈ cr.issues, pyFalsyStr p.id ≠ some i.id)
    (hpr : ∀ pr, o.prioritization = some pr → ∀ p ∈ pr.issues, pyFalsyStr p.id ≠ some i.id) :
    process o w now = Except.ok (processAfterTriage o w1 now)
    ∧ (∀ st cid, dictGet (fastTrackState st i cid).clusters cid = some (ftCluster i cid)
        ∧ statusAt (fastTrackState st i cid) i.id = some IssueStatus.prioritized)
    ∧ (ftCluster i (o.freshClusterId i.id)).issue_ids = [i.id]
    ∧ (ftCluster i (o.freshClusterId i.id)).status = "approved"
    ∧ (ftCluster i (o.freshClusterId i.id)).aggregate_priority = 10
    ∧ (statusAt (processAfterTriage o w1 now).world.state i.id = some IssueStatus.resolved
        ∨ i.id ∈ (processAfterTriage o w1 now).ftFailures.map Prod.fst)
    ∧ (∀ cr pr, o.clustering = some cr → o.prioritization = some pr →
        o.gatePrio = true → (processAfterTriage o w1 now).result.success = true) := by
  refine ⟨?_, ?_, rfl, rfl, rfl, ?_, ?_⟩
  · unfold process
    rw [ht]
    simp [hs]
  · intro st cid
    constructor
    · unfold fastTrackState
      dsimp only
      exact dictGet_set_self _ _ _
    · unfold statusAt fastTrackState
      dsimp only
      rw [dictGet_set_self]
      rfl
  · exact processAfterTriage_critical o w1 now i hi hnd hcl hpr
  · intro cr pr hc hp hg
    exact processAfterTriage_success o w1 now cr pr hc hp hg

/-- Witness for C6 amended: a run over one critical and one medium issue
with well-behaved agents. -/
theorem critical_fast_track_end_state_witness :
    process exC6GoodOracle exC6World 0
      = Except.ok (processAfterTriage exC6GoodOracle exC6World 0)
    ∧ (∀ st cid,
        dictGet (fastTrackState st exCritIssue cid).clusters cid
          = some (ftCluster exCritIssue cid)
        ∧ statusAt (fastTrackState st exCritIssue cid) exCritIssue.id
            = some IssueStatus.prioritized)
    ∧ (ftCluster exCritIssue (exC6GoodOracle.freshClusterId exCritIssue.id)).issue_ids
        = [exCritIssue.id]
    ∧ (ftCluster exCritIssue (exC6GoodOracle.freshClusterId exCritIssue.id)).status
        = "approved"
    ∧ (ftCluster exCritIssue
        (exC6GoodOracle.freshClusterId exCritIssue.id)).aggregate_priority = 10
    ∧ (statusAt (processAfterTriage exC6GoodOracle exC6World 0).world.state exCritIssue.id
          = some IssueStatus.resolved
        ∨ exCritIssue.id
            ∈ (processAfterTriage exC6GoodOracle exC6World 0).ftFailures.map Prod.fst)
    ∧ (∀ cr pr, exC6GoodOracle.clustering = some cr →
        exC6GoodOracle.prioritization = some pr → exC6GoodOracle.gatePrio = true →
        (processAfterTriage exC6GoodOracle exC6World 0).result.success = true) :=
  critical_fast_track_end_state exC6GoodOracle exC6World 0
    { success := true, message := "No draft issues to triage." } exC6World exCritIssue
    rfl rfl (by decide) (by decide)
    (by intro cr hcr; cases Option.some.inj hcr; decide)
    (by intro pr hpr; cases Option.some.inj hpr; decide)

/-- C6 counterexample: the clustering agent output also names the
fast-tracked critical issue c1; the merge moves the already resolved issue
back to clustered, the prioritization agent then fails, and the run ends
with c1 neither resolved nor in the fast-track failure list. -/
theorem critical_fast_track_counterexample :
    (process exC6Oracle exC6World 0).map (fun out =>
      (statusAt out.world.state "c1", out.ftFailures))
      = Except.ok (some IssueStatus.clustered, []) := by
  rfl

end ChatRetro
